import Mathlib

/-!
Shallow embedding of `src/server.js` (BackendAPICartItem): a product catalog
and a per-session shopping cart over an in-memory store.  JS numbers that the
code only ever treats as integers (ids, quantities, stock) are modelled as
`Int`; monetary amounts (prices, totals) as exact rationals `ℚ`; `parseInt`
is modelled on strings; the session map is a total function with the empty
cart as default, which is observationally equivalent to the source's
`Map` + `getOrCreateCart` (the map is only ever read through
`getOrCreateCart`, which inserts `[]` on a miss).
-/

/-- The whitespace and line-terminator characters trimmed by JS
`parseInt`: tab, LF, VT, FF, CR, space, NBSP, Ogham space mark, the
Unicode en/em/etc. spaces, LS, PS, NNBSP, MMSP, ideographic space, and
the BOM. -/
def jsWhitespace : List Char :=
  ['\u0009', '\u000A', '\u000B', '\u000C', '\u000D', ' ', ' ',
   ' ', ' ', ' ', ' ', ' ', ' ', ' ',
   ' ', ' ', ' ', ' ', ' ', ' ', ' ',
   ' ', ' ', '　', '﻿']

/-- Whether a character is trimmed by JS `parseInt`. -/
def isJsSpace (c : Char) : Bool :=
  decide (c ∈ jsWhitespace)

/-- Hexadecimal digits, as accepted by JS `parseInt` at radix 16. -/
def isHexDigit (c : Char) : Bool :=
  c.isDigit ∨ ('a' ≤ c ∧ c ≤ 'f') ∨ ('A' ≤ c ∧ c ≤ 'F')

/-- Numeric value of one hexadecimal digit. -/
def hexVal (c : Char) : Nat :=
  if c.isDigit then c.toNat - 48
  else if 'a' ≤ c ∧ c ≤ 'f' then c.toNat - 87
  else c.toNat - 55

/-- Numeric value of a run of hexadecimal digits, most significant
first. -/
def hexDigitsToNat (l : List Char) : Nat :=
  l.foldl (fun a c => a * 16 + hexVal c) 0

/-- Numeric value of a run of decimal digits, most significant first. -/
def digitsToNat (l : List Char) : Nat :=
  l.foldl (fun a c => a * 10 + (c.toNat - 48)) 0

/-- Longest leading run of decimal digits, or `none` if there is none. -/
def parseUnsigned (l : List Char) : Option Nat :=
  match l.takeWhile Char.isDigit with
  | [] => none
  | d => some (digitsToNat d)

/-- Longest leading run of hexadecimal digits, or `none` if there is
none. -/
def parseUnsignedHex (l : List Char) : Option Nat :=
  match l.takeWhile isHexDigit with
  | [] => none
  | d => some (hexDigitsToNat d)

/-- The radix selection of JS `parseInt` with no radix argument: a
`0x`/`0X` prefix switches to hexadecimal (yielding `NaN` when no hex
digit follows the prefix), anything else parses as decimal. -/
def parseUnsignedRadix (l : List Char) : Option Nat :=
  match l with
  | '0' :: 'x' :: rest => parseUnsignedHex rest
  | '0' :: 'X' :: rest => parseUnsignedHex rest
  | _ => parseUnsigned l

/-- JS `parseInt(s)` with no radix argument: skip leading whitespace,
optional sign, then either a `0x`-prefixed hexadecimal literal or the
longest decimal digit prefix; `none` models `NaN`. -/
def jsParseIntList (l : List Char) : Option Int :=
  match l.dropWhile isJsSpace with
  | '-' :: rest => (parseUnsignedRadix rest).map (fun n => -(n : Int))
  | '+' :: rest => (parseUnsignedRadix rest).map (fun n => (n : Int))
  | l' => (parseUnsignedRadix l').map (fun n => (n : Int))

/-- JS `parseInt` on a string. -/
def jsParseInt (s : String) : Option Int :=
  jsParseIntList s.data

/-- A catalog product, as seeded in `server.js`. -/
structure Product where
  id : Int
  name : String
  price : ℚ
  image : String
  description : String
  stock : Int
deriving DecidableEq, Repr

/-- Catalog entry with `id: 1` from `server.js`. -/
def iphone15Pro : Product :=
  { id := 1, name := "iPhone 15 Pro", price := 999.99,
    image := "https://9to5mac.com/wp-content/uploads/sites/6/2024/07/apple-device-lineup.jpg?quality=82&strip=all&w=1600",
    description := "Latest iPhone with advanced features", stock := 50 }

/-- Catalog entry with `id: 2` from `server.js`. -/
def galaxyS24 : Product :=
  { id := 2, name := "Samsung Galaxy S24", price := 899.99,
    image := "https://wallpaperaccess.com/full/9496579.jpg",
    description := "Flagship Samsung smartphone", stock := 30 }

/-- Catalog entry with `id: 3` from `server.js`. -/
def macbookProM3 : Product :=
  { id := 3, name := "MacBook Pro M3", price := 1999.99,
    image := "https://wallpaperaccess.com/full/9496579.jpg",
    description := "Powerful laptop for professionals", stock := 25 }

/-- Catalog entry with `id: 4` from `server.js`. -/
def sonyWH1000XM5 : Product :=
  { id := 4, name := "Sony WH-1000XM5", price := 399.99,
    image := "https://wallpaperaccess.com/full/9496579.jpg",
    description := "Noise-canceling wireless headphones", stock := 40 }

/-- Catalog entry with `id: 5` from `server.js`. -/
def ipadAir : Product :=
  { id := 5, name := "iPad Air", price := 599.99,
    image := "https://tse4.mm.bing.net/th/id/OIP.E9Ux33FuCo7mGLn9Ey3wnAHaE8?pid=Api&P=0&h=180",
    description := "Versatile tablet for work and play", stock := 35 }

/-- The static product catalog of `server.js`. -/
def products : List Product :=
  [iphone15Pro, galaxyS24, macbookProM3, sonyWH1000XM5, ipadAir]

/-- `findProductById` from `server.js`:
`products.find(product => product.id === parseInt(id))`.
When `parseInt` yields `NaN`, the `===` test is false for every product,
so the lookup returns nothing. -/
def findProductById (id : String) : Option Product :=
  match jsParseInt id with
  | none => none
  | some n => products.find? (fun product => product.id = n)

/-- A cart line item: the snapshot `{id, name, price, image, quantity}`
pushed by the POST handler. -/
structure CartItem where
  id : Int
  name : String
  price : ℚ
  image : String
  quantity : Int
deriving DecidableEq, Repr

/-- The line-item snapshot the POST handler pushes for a product. -/
def snapshotItem (p : Product) (q : Int) : CartItem :=
  { id := p.id, name := p.name, price := p.price, image := p.image,
    quantity := q }

/-- The distinct failure responses the cart routes can produce. -/
inductive CartError where
  /-- 400 "Invalid product ID." -/
  | invalidId
  /-- 404 "Product not found." (catalog miss in `validateProductId`) -/
  | productNotFound
  /-- 404 "Item not found in cart." -/
  | notFoundInCart
  /-- 400 "Quantity must be a positive integer." (`validateQuantity`) -/
  | invalidQuantity
  /-- 400 "Quantity is required for update operation." -/
  | quantityRequired
  /-- 400 insufficient-stock responses -/
  | insufficientStock
  /-- 400 "Cart is already empty." -/
  | alreadyEmpty
deriving DecidableEq, Repr

/-- `cart[existingItemIndex].quantity = q` for the first index whose `id`
matches `pid` (JS `findIndex` finds the first match). -/
def setQtyFirst : List CartItem → Int → Int → List CartItem
  | [], _, _ => []
  | it :: rest, pid, q =>
      if it.id = pid then { it with quantity := q } :: rest
      else it :: setQtyFirst rest pid q

/-- `cart.splice(itemIndex, 1)` for the first index whose `id` matches. -/
def removeFirst : List CartItem → Int → List CartItem
  | [], _ => []
  | it :: rest, pid =>
      if it.id = pid then rest else it :: removeFirst rest pid

/-- `calculateCartTotal` from `server.js`:
`cart.reduce((total, item) => total + item.price * item.quantity, 0)`. -/
def calculateCartTotal (cart : List CartItem) : ℚ :=
  cart.foldl (fun total item => total + item.price * item.quantity) 0

/-- `parseFloat(total.toFixed(2))`: round to 2 decimal places. -/
def round2 (x : ℚ) : ℚ :=
  (round (x * 100) : ℤ) / 100

/-- `validateQuantity` middleware: accepts an absent quantity, rejects a
supplied quantity unless it is a positive integer. -/
def validQuantityOpt : Option Int → Bool
  | none => true
  | some q => 0 < q

/-- Core of the POST `/api/cart/:productId` handler, after middleware:
stock check on the requested quantity, then merge-add into an existing
line item (re-checking stock on the sum) or append a fresh snapshot. -/
def addItem (cart : List CartItem) (product : Product) (quantity : Int) :
    Except CartError (List CartItem) :=
  if quantity > product.stock then .error .insufficientStock
  else
    match cart.find? (fun item => item.id = product.id) with
    | some existing =>
        let newQuantity := existing.quantity + quantity
        if newQuantity > product.stock then .error .insufficientStock
        else .ok (setQtyFirst cart product.id newQuantity)
    | none =>
        .ok (cart ++ [{ id := product.id, name := product.name,
                        price := product.price, image := product.image,
                        quantity := quantity }])

/-- Full POST `/api/cart/:productId` pipeline on a resolved product:
`validateQuantity`, then the handler with `quantity = 1` as default. -/
def postPipeline (cart : List CartItem) (product : Product)
    (quantity? : Option Int) : Except CartError (List CartItem) :=
  if ¬ validQuantityOpt quantity? then .error .invalidQuantity
  else addItem cart product (quantity?.getD 1)

/-- Full PUT `/api/cart/:productId` pipeline on a resolved product:
`validateQuantity`, then the handler: `!quantity` check (false only for an
absent or zero quantity), cart lookup, stock check, in-place replacement. -/
def putPipeline (cart : List CartItem) (product : Product)
    (quantity? : Option Int) : Except CartError (List CartItem) :=
  if ¬ validQuantityOpt quantity? then .error .invalidQuantity
  else
    match quantity? with
    | none => .error .quantityRequired
    | some quantity =>
        if quantity = 0 then .error .quantityRequired
        else
          match cart.find? (fun item => item.id = product.id) with
          | none => .error .notFoundInCart
          | some _ =>
              if quantity > product.stock then .error .insufficientStock
              else .ok (setQtyFirst cart product.id quantity)

/-- DELETE `/api/cart/:productId` handler (no `validateProductId` on this
route): its own `parseInt` check, cart lookup, then `splice`.  Returns the
updated cart together with the removed item. -/
def removePipeline (cart : List CartItem) (productId : String) :
    Except CartError (List CartItem × CartItem) :=
  match jsParseInt productId with
  | none => .error .invalidId
  | some pid =>
      match cart.find? (fun item => item.id = pid) with
      | none => .error .notFoundInCart
      | some it => .ok (removeFirst cart pid, it)

/-- DELETE `/api/cart` handler: fails on an empty cart, else clears it. -/
def clearPipeline (cart : List CartItem) :
    Except CartError (List CartItem) :=
  if cart.length = 0 then .error .alreadyEmpty else .ok []

/-- The session-to-cart map.  The source's `Map` is only ever read through
`getOrCreateCart`, which installs `[]` on a miss, so a total function with
default `[]` is observationally equivalent. -/
def Store : Type := String → List CartItem

/-- `carts.set(sessionId, cart)`. -/
def setStore (st : Store) (sessionId : String) (cart : List CartItem) :
    Store :=
  fun s => if s = sessionId then cart else st s

/-- The five cart operations of the HTTP surface, with the arguments each
handler receives after session resolution. -/
inductive CartOp where
  | get
  | add (product : Product) (quantity? : Option Int)
  | update (product : Product) (quantity? : Option Int)
  | remove (productId : String)
  | clear

/-- Effect of one cart operation on the store: the handlers write the
session's cart back only on success, and only under the session's own key. -/
def applyOp (op : CartOp) (sessionId : String) (st : Store) : Store :=
  match op with
  | .get => st
  | .add product quantity? =>
      match postPipeline (st sessionId) product quantity? with
      | .ok cart => setStore st sessionId cart
      | .error _ => st
  | .update product quantity? =>
      match putPipeline (st sessionId) product quantity? with
      | .ok cart => setStore st sessionId cart
      | .error _ => st
  | .remove productId =>
      match removePipeline (st sessionId) productId with
      | .ok (cart, _) => setStore st sessionId cart
      | .error _ => st
  | .clear =>
      match clearPipeline (st sessionId) with
      | .ok cart => setStore st sessionId cart
      | .error _ => st

/-- The `{cart, total, itemCount}` success payload shared by the cart
routes: `total: parseFloat(total.toFixed(2))`, `itemCount: cart.length`. -/
structure CartResponse where
  cart : List CartItem
  total : ℚ
  itemCount : Nat
deriving DecidableEq, Repr

/-- Builds the success payload exactly as every cart handler does. -/
def mkCartResponse (cart : List CartItem) : CartResponse :=
  { cart := cart, total := round2 (calculateCartTotal cart),
    itemCount := cart.length }

/-- GET `/api/cart`: the success payload for the session's cart. -/
def getCartResponse (st : Store) (sessionId : String) : CartResponse :=
  mkCartResponse (st sessionId)

/-- POST `/api/cart/:productId`: success payload of an add. -/
def addResponse (cart : List CartItem) (product : Product)
    (quantity? : Option Int) : Except CartError CartResponse :=
  (postPipeline cart product quantity?).map mkCartResponse

/-- PUT `/api/cart/:productId`: success payload of an update. -/
def updateResponse (cart : List CartItem) (product : Product)
    (quantity? : Option Int) : Except CartError CartResponse :=
  (putPipeline cart product quantity?).map mkCartResponse

/-- DELETE `/api/cart/:productId`: success payload plus `removedItem`. -/
def removeResponse (cart : List CartItem) (productId : String) :
    Except CartError (CartResponse × CartItem) :=
  (removePipeline cart productId).map (fun r => (mkCartResponse r.1, r.2))

/-- Pagination metadata of GET `/api/products`. -/
structure PageMeta where
  currentPage : Nat
  totalPages : Nat
  totalProducts : Nat
  hasNext : Bool
  hasPrev : Bool
deriving DecidableEq, Repr

/-- JS `l.slice(a, b)` for non-negative indices. -/
def jsSlice (l : List Product) (a b : Nat) : List Product :=
  (l.take b).drop a

/-- Search filter of GET `/api/products`: case-insensitive substring match
on name or description; an empty (falsy) query matches everything. -/
def searchFilter (search : String) : List Product :=
  if search.isEmpty then products
  else
    products.filter (fun product =>
      decide (List.IsInfix search.toLower.data product.name.toLower.data) ||
      decide (List.IsInfix search.toLower.data product.description.toLower.data))

/-- Pagination of GET `/api/products`: `startIndex = (page-1)*limit`,
`endIndex = page*limit`, slice, and the metadata object. -/
def paginate (l : List Product) (page limit : Nat) :
    List Product × PageMeta :=
  let startIndex := (page - 1) * limit
  let endIndex := page * limit
  ( jsSlice l startIndex endIndex,
    { currentPage := page,
      totalPages := (l.length + limit - 1) / limit,
      totalProducts := l.length,
      hasNext := endIndex < l.length,
      hasPrev := startIndex > 0 } )

/-- GET `/api/products` handler: filter by the search query, paginate. -/
def productsHandler (search : String) (page limit : Nat) :
    List Product × PageMeta :=
  paginate (searchFilter search) page limit

/-- The cart invariant of the spec's data model: at most one line item per
product id, and each quantity bounded by the stock of the catalog product
it references. -/
def CartInv (cart : List CartItem) : Prop :=
  (cart.map (fun item => item.id)).Nodup ∧
    ∀ item ∈ cart, ∃ p ∈ products, p.id = item.id ∧ item.quantity ≤ p.stock

/-- Carts reachable from the empty cart by the HTTP cart operations.
`validateProductId` guarantees the resolved product is in the catalog for
POST and PUT, which is recorded as a hypothesis of those steps; GET never
changes the cart. -/
inductive ReachableCart : List CartItem → Prop where
  | empty : ReachableCart []
  | add {c c' : List CartItem} {p : Product} {q? : Option Int}
      (hp : p ∈ products) (h : postPipeline c p q? = .ok c')
      (hr : ReachableCart c) : ReachableCart c'
  | update {c c' : List CartItem} {p : Product} {q? : Option Int}
      (hp : p ∈ products) (h : putPipeline c p q? = .ok c')
      (hr : ReachableCart c) : ReachableCart c'
  | remove {c c' : List CartItem} {s : String} {it : CartItem}
      (h : removePipeline c s = .ok (c', it))
      (hr : ReachableCart c) : ReachableCart c'
  | clear {c c' : List CartItem} (h : clearPipeline c = .ok c')
      (hr : ReachableCart c) : ReachableCart c'

/-! ### Helper lemmas about the cart operations -/

theorem setQtyFirst_map_id (c : List CartItem) (pid q : Int) :
    (setQtyFirst c pid q).map (fun item => item.id) =
      c.map (fun item => item.id) := by
  induction c with
  | nil => rfl
  | cons it rest ih =>
      by_cases h : it.id = pid <;> simp [setQtyFirst, h, ih]

theorem mem_setQtyFirst {x : CartItem} {c : List CartItem} {pid q : Int}
    (hx : x ∈ setQtyFirst c pid q) :
    x ∈ c ∨ ∃ it ∈ c, it.id = pid ∧ x = { it with quantity := q } := by
  induction c with
  | nil => simp [setQtyFirst] at hx
  | cons it rest ih =>
      by_cases h : it.id = pid
      · simp only [setQtyFirst, if_pos h, List.mem_cons] at hx
        rcases hx with hx | hx
        · exact Or.inr ⟨it, List.mem_cons_self it rest, h, hx⟩
        · exact Or.inl (List.mem_cons_of_mem it hx)
      · simp only [setQtyFirst, if_neg h, List.mem_cons] at hx
        rcases hx with hx | hx
        · exact Or.inl (hx ▸ List.mem_cons_self it rest)
        · rcases ih hx with hx' | ⟨it', hm, hid, hx'⟩
          · exact Or.inl (List.mem_cons_of_mem it hx')
          · exact Or.inr ⟨it', List.mem_cons_of_mem it hm, hid, hx'⟩

theorem find?_setQtyFirst {c : List CartItem} {pid : Int} {it : CartItem}
    (q : Int) (h : c.find? (fun item => item.id = pid) = some it) :
    (setQtyFirst c pid q).find? (fun item => item.id = pid) =
      some { it with quantity := q } := by
  induction c with
  | nil => simp at h
  | cons hd rest ih =>
      by_cases hh : hd.id = pid
      · simp only [List.find?_cons, decide_eq_true_eq, hh, decide_True] at h
        have h' : hd = it := Option.some.inj h
        subst h'
        simp [setQtyFirst, if_pos hh, List.find?_cons, hh]
      · simp only [List.find?_cons, decide_eq_true_eq, hh, decide_False] at h
        simp [setQtyFirst, if_neg hh, List.find?_cons, hh, ih h]

theorem setQtyFirst_append_right {c : List CartItem} {pid : Int}
    (l : List CartItem) (q : Int) (h : ∀ x ∈ c, x.id ≠ pid) :
    setQtyFirst (c ++ l) pid q = c ++ setQtyFirst l pid q := by
  induction c with
  | nil => rfl
  | cons it rest ih =>
      have hne : it.id ≠ pid := h it (List.mem_cons_self it rest)
      simp only [List.cons_append, setQtyFirst, if_neg hne, List.cons_inj_right]
      exact ih fun x hx => h x (List.mem_cons_of_mem it hx)

theorem removeFirst_sublist (c : List CartItem) (pid : Int) :
    (removeFirst c pid).Sublist c := by
  induction c with
  | nil => exact List.Sublist.refl []
  | cons it rest ih =>
      by_cases h : it.id = pid
      · simp only [removeFirst, if_pos h]
        exact List.sublist_cons_self it rest
      · simp only [removeFirst, if_neg h]
        exact ih.cons₂ it

theorem calculateCartTotal_eq_sum (c : List CartItem) :
    calculateCartTotal c =
      (c.map (fun item => item.price * (item.quantity : ℚ))).sum := by
  have key : ∀ (l : List CartItem) (a : ℚ),
      l.foldl (fun total item => total + item.price * (item.quantity : ℚ)) a =
        a + (l.map (fun item => item.price * (item.quantity : ℚ))).sum := by
    intro l
    induction l with
    | nil => intro a; simp
    | cons it rest ih =>
        intro a
        simp only [List.foldl_cons, List.map_cons, List.sum_cons, ih]
        ring
  simpa [calculateCartTotal] using key c 0

theorem find?_eq_none_id {c : List CartItem} {pid : Int}
    (h : c.find? (fun item => item.id = pid) = none) :
    ∀ x ∈ c, x.id ≠ pid := by
  intro x hx
  have := List.find?_eq_none.mp h x hx
  simpa using this

/-! ### Claim theorems -/

/-- C1: starting from a cart with no line item for product `p`, adding
quantity `q1` and then quantity `q2` (with `q1 + q2 ≤ p.stock`) leaves
exactly one line item for `p`, whose quantity is `q1 + q2`; no second
line item for `p` is created. -/
theorem addItem_merge_single_line_item (c : List CartItem) (p : Product)
    (q1 q2 : Int) (hnone : c.find? (fun item => item.id = p.id) = none)
    (hq1 : 0 < q1) (hq2 : 0 < q2) (hstock : q1 + q2 ≤ p.stock) :
    addItem c p q1 = .ok (c ++ [snapshotItem p q1]) ∧
    addItem (c ++ [snapshotItem p q1]) p q2 =
      .ok (c ++ [snapshotItem p (q1 + q2)]) ∧
    (c ++ [snapshotItem p (q1 + q2)]).filter
        (fun item => item.id = p.id) = [snapshotItem p (q1 + q2)] := by
  have h1 : ¬ q1 > p.stock := by omega
  have h2 : ¬ q2 > p.stock := by omega
  refine ⟨?_, ?_, ?_⟩
  · simp [addItem, if_neg h1, hnone, snapshotItem]
  · have hfind : (c ++ [snapshotItem p q1]).find?
        (fun item => item.id = p.id) = some (snapshotItem p q1) := by
      rw [List.find?_append, hnone]
      simp [snapshotItem]
    have hno : ¬ ((snapshotItem p q1).quantity + q2 > p.stock) := by
      simp only [snapshotItem]
      omega
    simp only [addItem, if_neg h2, hfind, if_neg hno]
    rw [setQtyFirst_append_right _ _ (find?_eq_none_id hnone)]
    simp [setQtyFirst, snapshotItem]
  · rw [List.filter_append]
    have hnil : c.filter (fun item => item.id = p.id) = [] := by
      rw [List.filter_eq_nil_iff]
      intro a ha
      simpa using find?_eq_none_id hnone a ha
    rw [hnil]
    simp [snapshotItem]

/-- C1 witness at a concrete input: two adds of the iPhone merge into a
single line item of quantity 5. -/
theorem addItem_merge_single_line_item_witness :
    addItem [] iphone15Pro 2 = .ok [snapshotItem iphone15Pro 2] ∧
    addItem [snapshotItem iphone15Pro 2] iphone15Pro 3 =
      .ok [snapshotItem iphone15Pro 5] ∧
    ([snapshotItem iphone15Pro 5]).filter
        (fun item => item.id = iphone15Pro.id) = [snapshotItem iphone15Pro 5]
    := by
  have h := addItem_merge_single_line_item [] iphone15Pro 2 3 rfl
    (by decide) (by decide) (by decide)
  simp only [List.nil_append, show (2 : ℤ) + 3 = 5 from by norm_num] at h
  exact h

/-- C2: `addItem` fails with `InsufficientStock` whenever the requested
quantity exceeds the product's stock, and whenever an existing line item's
quantity plus the requested quantity exceeds the stock; on any failing add,
the session store is left exactly as it was. -/
theorem addItem_stock_failure_leaves_cart :
    (∀ (c : List CartItem) (p : Product) (q : Int), q > p.stock →
        addItem c p q = .error .insufficientStock) ∧
    (∀ (c : List CartItem) (p : Product) (q : Int) (it : CartItem),
        c.find? (fun item => item.id = p.id) = some it →
        it.quantity + q > p.stock →
        addItem c p q = .error .insufficientStock) ∧
    (∀ (st : Store) (sessionId : String) (p : Product) (q? : Option Int)
        (e : CartError), postPipeline (st sessionId) p q? = .error e →
        applyOp (.add p q?) sessionId st = st) := by
  refine ⟨?_, ?_, ?_⟩
  · intro c p q h
    simp [addItem, if_pos h]
  · intro c p q it hfind h
    by_cases hq : q > p.stock
    · simp [addItem, if_pos hq]
    · simp [addItem, if_neg hq, hfind, if_pos h]
  · intro st sessionId p q? e h
    simp only [applyOp]
    rw [h]

/-- C2 witness at a concrete input: adding 51 iPhones (stock 50) fails and
leaves the store untouched. -/
theorem addItem_stock_failure_leaves_cart_witness :
    addItem [] iphone15Pro 51 = .error .insufficientStock ∧
    applyOp (.add iphone15Pro (some 51)) "sessA"
        (fun _ => ([] : List CartItem)) = fun _ => [] := by
  refine ⟨addItem_stock_failure_leaves_cart.1 [] iphone15Pro 51 (by decide),
    addItem_stock_failure_leaves_cart.2.2 (fun _ => []) "sessA" iphone15Pro
      (some 51) .insufficientStock rfl⟩

/-- C3: every cart reachable from the empty cart through the HTTP cart
operations has at most one line item per product id, and each line item's
quantity is bounded by the stock of the catalog product it references. -/
theorem reachable_cart_invariant (c : List CartItem)
    (h : ReachableCart c) : CartInv c := by
  induction h with
  | empty => exact ⟨List.nodup_nil, by simp⟩
  | @add c c' p q? hp h hr ih =>
      simp only [postPipeline] at h
      split at h
      · exact absurd h (by simp)
      · simp only [addItem] at h
        split at h
        · exact absurd h (by simp)
        · rename_i hqs
          split at h
          · rename_i existing hfind
            split at h
            · exact absurd h (by simp)
            · rename_i hns
              obtain rfl := Except.ok.inj h
              refine ⟨?_, ?_⟩
              · rw [setQtyFirst_map_id]
                exact ih.1
              · intro x hx
                rcases mem_setQtyFirst hx with hx' | ⟨it, _, hid, rfl⟩
                · exact ih.2 x hx'
                · exact ⟨p, hp, by simp [hid], by simpa using not_lt.mp hns⟩
          · rename_i hfind
            obtain rfl := Except.ok.inj h
            refine ⟨?_, ?_⟩
            · rw [List.map_append, List.nodup_append]
              refine ⟨ih.1, by simp, ?_⟩
              intro a ha hb
              simp only [List.map_cons, List.map_nil, List.mem_cons,
                List.not_mem_nil, or_false] at hb
              obtain ⟨x, hx, rfl⟩ := List.mem_map.mp ha
              exact find?_eq_none_id hfind x hx (by simpa using hb)
            · intro x hx
              rcases List.mem_append.mp hx with hx' | hx'
              · exact ih.2 x hx'
              · simp only [List.mem_cons, List.not_mem_nil, or_false] at hx'
                subst hx'
                exact ⟨p, hp, rfl, by simpa using not_lt.mp hqs⟩
  | @update c c' p q? hp h hr ih =>
      simp only [putPipeline] at h
      split at h
      · exact absurd h (by simp)
      · split at h
        · exact absurd h (by simp)
        · split at h
          · exact absurd h (by simp)
          · split at h
            · exact absurd h (by simp)
            · split at h
              · exact absurd h (by simp)
              · rename_i q hq0 existing hfind hqs
                obtain rfl := Except.ok.inj h
                refine ⟨?_, ?_⟩
                · rw [setQtyFirst_map_id]
                  exact ih.1
                · intro x hx
                  rcases mem_setQtyFirst hx with hx' | ⟨it, _, hid, rfl⟩
                  · exact ih.2 x hx'
                  · exact ⟨p, hp, by simp [hid], by simpa using not_lt.mp hqs⟩
  | @remove c c' s it h hr ih =>
      simp only [removePipeline] at h
      split at h
      · exact absurd h (by simp)
      · split at h
        · exact absurd h (by simp)
        · have h2 := Except.ok.inj h
          injection h2 with h3 h4
          subst h3
          exact ⟨ih.1.sublist ((removeFirst_sublist c _).map _),
            fun x hx => ih.2 x ((removeFirst_sublist c _).subset hx)⟩
  | @clear c c' h hr ih =>
      simp only [clearPipeline] at h
      split at h
      · exact absurd h (by simp)
      · obtain rfl := Except.ok.inj h
        exact ⟨List.nodup_nil, by simp⟩

/-- C3 witness: a concrete reachable one-item cart satisfies the
invariant. -/
theorem reachable_cart_invariant_witness :
    ReachableCart [snapshotItem iphone15Pro 2] ∧
      CartInv [snapshotItem iphone15Pro 2] := by
  have hmem : iphone15Pro ∈ products := by simp [products]
  have hpost : postPipeline [] iphone15Pro (some 2) =
      .ok [snapshotItem iphone15Pro 2] := rfl
  have hr : ReachableCart [snapshotItem iphone15Pro 2] :=
    ReachableCart.add hmem hpost ReachableCart.empty
  exact ⟨hr, reachable_cart_invariant _ hr⟩

/-- C4 counterexample: a supplied falsy quantity of `0` is rejected by the
`validateQuantity` middleware with the invalid-quantity error, not with
`QuantityRequired` as the claim states. -/
theorem updateItem_zero_quantity_not_required :
    putPipeline [snapshotItem iphone15Pro 1] iphone15Pro (some 0) =
      .error .invalidQuantity ∧
    CartError.invalidQuantity ≠ CartError.quantityRequired :=
  ⟨rfl, by decide⟩

/-- C4 amended: `updateItem` fails with `InvalidQuantity` when the supplied
quantity is not a positive integer (this covers the falsy value `0`), with
`QuantityRequired` only when the quantity is absent, with `NotFound` when
no line item matches, with `InsufficientStock` when the quantity exceeds
stock, and otherwise replaces (not adds to) the stored quantity with
exactly the given value. -/
theorem updateItem_cases (c : List CartItem) (p : Product) :
    putPipeline c p none = .error .quantityRequired ∧
    (∀ q : Int, q ≤ 0 → putPipeline c p (some q) = .error .invalidQuantity) ∧
    (∀ q : Int, 0 < q → c.find? (fun item => item.id = p.id) = none →
        putPipeline c p (some q) = .error .notFoundInCart) ∧
    (∀ (q : Int) (it : CartItem), 0 < q →
        c.find? (fun item => item.id = p.id) = some it → q > p.stock →
        putPipeline c p (some q) = .error .insufficientStock) ∧
    (∀ (q : Int) (it : CartItem), 0 < q →
        c.find? (fun item => item.id = p.id) = some it → q ≤ p.stock →
        putPipeline c p (some q) = .ok (setQtyFirst c p.id q) ∧
        (setQtyFirst c p.id q).find? (fun item => item.id = p.id) =
          some { it with quantity := q }) := by
  refine ⟨rfl, ?_, ?_, ?_, ?_⟩
  · intro q hq
    simp [putPipeline, validQuantityOpt, show ¬ (0 < q) from not_lt.mpr hq]
  · intro q hq hfind
    simp [putPipeline, validQuantityOpt, hq, hfind,
      show q ≠ 0 by omega]
  · intro q it hq hfind hstock
    simp [putPipeline, validQuantityOpt, hq, hfind, hstock,
      show q ≠ 0 by omega]
  · intro q it hq hfind hstock
    refine ⟨?_, find?_setQtyFirst q hfind⟩
    simp [putPipeline, validQuantityOpt, hq, hfind,
      show ¬ (q > p.stock) from not_lt.mpr hstock, show q ≠ 0 by omega]

/-- C4 witness at a concrete input: updating the iPhone line item to
quantity 5 replaces the stored quantity 2. -/
theorem updateItem_cases_witness :
    putPipeline [snapshotItem iphone15Pro 2] iphone15Pro (some 5) =
      .ok (setQtyFirst [snapshotItem iphone15Pro 2] iphone15Pro.id 5) ∧
    (setQtyFirst [snapshotItem iphone15Pro 2] iphone15Pro.id 5).find?
        (fun item => item.id = iphone15Pro.id) =
      some { snapshotItem iphone15Pro 2 with quantity := 5 } :=
  (updateItem_cases [snapshotItem iphone15Pro 2] iphone15Pro).2.2.2.2 5
    (snapshotItem iphone15Pro 2) (by decide) rfl (by decide)

/-- C5 counterexample: `"0"` is not a positive integer, so the claim
demands `InvalidId`, but `parseInt("0")` is a number (not `NaN`), so the
handler proceeds to the cart lookup and fails with `NotFound` instead. -/
theorem removeItem_zero_id_not_invalid :
    removePipeline [] "0" = .error .notFoundInCart ∧
    jsParseInt "0" = some 0 ∧
    CartError.notFoundInCart ≠ CartError.invalidId :=
  ⟨rfl, rfl, by decide⟩

/-- C5 amended: `removeItem` fails with `InvalidId` exactly when
`parseInt(productId)` yields `NaN` (after whitespace and an optional
sign, neither a `0x`-prefixed hexadecimal literal nor a decimal digit
follows); any id that parses to a number — positive or not — is looked
up in the cart, failing with `NotFound` when absent and otherwise
removing and returning the first matching line item together with the
updated cart. -/
theorem removeItem_cases (c : List CartItem) (s : String) :
    (jsParseInt s = none → removePipeline c s = .error .invalidId) ∧
    (∀ pid : Int, jsParseInt s = some pid →
        c.find? (fun item => item.id = pid) = none →
        removePipeline c s = .error .notFoundInCart) ∧
    (∀ (pid : Int) (it : CartItem), jsParseInt s = some pid →
        c.find? (fun item => item.id = pid) = some it →
        removePipeline c s = .ok (removeFirst c pid, it)) := by
  refine ⟨?_, ?_, ?_⟩ <;> intros <;> simp [removePipeline, *]

/-- C5 witness at concrete inputs: removing product `"1"` succeeds and
returns the removed item; the hexadecimal id `"0x3"` parses to 3 and
removes the MacBook line item; `"0x"` parses to `NaN` and yields
`InvalidId`. -/
theorem removeItem_cases_witness :
    removePipeline [snapshotItem iphone15Pro 2] "1" =
      .ok (removeFirst [snapshotItem iphone15Pro 2] 1,
        snapshotItem iphone15Pro 2) ∧
    removePipeline [snapshotItem macbookProM3 1] "0x3" =
      .ok (removeFirst [snapshotItem macbookProM3 1] 3,
        snapshotItem macbookProM3 1) ∧
    removePipeline [snapshotItem macbookProM3 1] "0x" =
      .error .invalidId :=
  ⟨(removeItem_cases [snapshotItem iphone15Pro 2] "1").2.2 1
      (snapshotItem iphone15Pro 2) rfl rfl,
    (removeItem_cases [snapshotItem macbookProM3 1] "0x3").2.2 3
      (snapshotItem macbookProM3 1) rfl rfl,
    (removeItem_cases [snapshotItem macbookProM3 1] "0x").1 rfl⟩

/-- A decimal digit is not one of the whitespace characters skipped by
`parseInt`. -/
theorem isJsSpace_eq_false_of_isDigit {c : Char} (h : c.isDigit = true) :
    isJsSpace c = false := by
  cases hval : isJsSpace c
  · rfl
  · exfalso
    have hmem : c ∈ jsWhitespace := of_decide_eq_true hval
    have hall : ∀ x ∈ jsWhitespace, x.isDigit = false := by decide
    rw [hall c hmem] at h
    exact Bool.false_ne_true h

/-- On a nonempty all-digit character list, the JS `parseInt` model returns
the decimal value of the whole list. -/
theorem jsParseIntList_all_digits {l : List Char} (hne : l ≠ [])
    (hd : ∀ c ∈ l, c.isDigit = true) :
    jsParseIntList l = some (digitsToNat l) := by
  cases l with
  | nil => exact absurd rfl hne
  | cons c rest =>
      have hc := hd c (List.mem_cons_self c rest)
      have hdrop : (c :: rest).dropWhile isJsSpace = c :: rest := by
        rw [List.dropWhile_cons, if_neg]
        simp [isJsSpace_eq_false_of_isDigit hc]
      have htake : (c :: rest).takeWhile Char.isDigit = c :: rest :=
        List.takeWhile_eq_self_iff.mpr hd
      simp only [jsParseIntList, hdrop]
      split
      · rename_i heq
        injection heq with hc' _
        exact absurd hc (hc' ▸ by decide)
      · rename_i heq
        injection heq with hc' _
        exact absurd hc (hc' ▸ by decide)
      · simp only [parseUnsignedRadix]
        split
        · rename_i heq2
          injection heq2 with hc0 hrest
          have hx : ('x' : Char) ∈ c :: rest := by
            rw [hrest]
            exact List.mem_cons_of_mem c (List.mem_cons_self 'x' _)
          exact absurd (hd 'x' hx) (by decide)
        · rename_i heq2
          injection heq2 with hc0 hrest
          have hx : ('X' : Char) ∈ c :: rest := by
            rw [hrest]
            exact List.mem_cons_of_mem c (List.mem_cons_self 'X' _)
          exact absurd (hd 'X' hx) (by decide)
        · simp [parseUnsigned, htake]

/-- String version of `jsParseIntList_all_digits`. -/
theorem jsParseInt_of_digits {s : String} (hne : s.data ≠ [])
    (hd : ∀ c ∈ s.data, c.isDigit = true) :
    jsParseInt s = some (digitsToNat s.data) :=
  jsParseIntList_all_digits hne hd

/-- C6 counterexample: `"1abc"` is not a valid positive integer (it is not
even all digits), yet `findProductById` returns the iPhone because
`parseInt` parses the leading `1`; the claim demands absence here. -/
theorem findById_malformed_input_returns_product :
    findProductById "1abc" = some iphone15Pro ∧
    ¬ (∀ c ∈ "1abc".data, c.isDigit = true) := by
  exact ⟨rfl, by decide⟩

/-- C6 amended: `findProductById` resolves the input through JS
`parseInt` with no radix (whitespace, optional sign, then a
`0x`-prefixed hexadecimal literal or a leading decimal digit run): when
`parseInt` yields `NaN` the result is absence (never an exception), when
a value `n` parses the result is the first catalog product with id `n`,
and in particular on all-digit inputs a product is returned iff a
catalog id equals the input's decimal value. -/
theorem findById_parseInt_semantics (s : String) :
    (jsParseInt s = none → findProductById s = none) ∧
    (∀ n : Int, jsParseInt s = some n →
        findProductById s = products.find? (fun product => product.id = n)) ∧
    (s.data ≠ [] → (∀ c ∈ s.data, c.isDigit = true) →
        ((findProductById s).isSome = true ↔
          ∃ p ∈ products, p.id = (digitsToNat s.data : Int))) := by
  refine ⟨?_, ?_, ?_⟩
  · intro h
    simp [findProductById, h]
  · intro n h
    simp [findProductById, h]
  · intro hne hd
    rw [findProductById, jsParseInt_of_digits hne hd]
    simp [List.find?_isSome]

/-- C6 witness at concrete inputs: the all-digit input `"3"` hits the
catalog iff some catalog id equals 3, and the hexadecimal input `"0x3"`
resolves to the catalog lookup for id 3 (the MacBook). -/
theorem findById_parseInt_semantics_witness :
    ((findProductById "3").isSome = true ↔
      ∃ p ∈ products, p.id = (digitsToNat "3".data : Int)) ∧
    findProductById "0x3" =
      products.find? (fun product => product.id = 3) :=
  ⟨(findById_parseInt_semantics "3").2.2 (by decide) (by decide),
    (findById_parseInt_semantics "0x3").2.1 3 rfl⟩

/-- C7: the reported total is the sum of price times quantity over the
line items, rounded to 2 decimal places; at a concrete cart with one
999.99 item and one 399.99 item, each at quantity 1, it is 1399.98. -/
theorem cartTotal_rounded_sum :
    (∀ c : List CartItem, (mkCartResponse c).total =
        round2 ((c.map (fun item => item.price * (item.quantity : ℚ))).sum)) ∧
    (mkCartResponse
        [snapshotItem iphone15Pro 1, snapshotItem sonyWH1000XM5 1]).total
      = 1399.98 := by
  constructor
  · intro c
    simp [mkCartResponse, calculateCartTotal_eq_sum]
  · norm_num [mkCartResponse, calculateCartTotal, round2, snapshotItem,
      iphone15Pro, sonyWH1000XM5]

/-- C8: a cart operation performed under session key `s1` never changes
the cart stored under a different session key `s2`. -/
theorem sessions_isolated (op : CartOp) (s1 s2 : String) (st : Store)
    (h : s2 ≠ s1) : applyOp op s1 st s2 = st s2 := by
  cases op with
  | get => rfl
  | add p q? =>
      cases hres : postPipeline (st s1) p q? with
      | ok cart => simp [applyOp, hres, setStore, h]
      | error e => simp [applyOp, hres]
  | update p q? =>
      cases hres : putPipeline (st s1) p q? with
      | ok cart => simp [applyOp, hres, setStore, h]
      | error e => simp [applyOp, hres]
  | remove pidStr =>
      cases hres : removePipeline (st s1) pidStr with
      | ok val =>
          obtain ⟨cart, it⟩ := val
          simp [applyOp, hres, setStore, h]
      | error e => simp [applyOp, hres]
  | clear =>
      cases hres : clearPipeline (st s1) with
      | ok cart => simp [applyOp, hres, setStore, h]
      | error e => simp [applyOp, hres]

/-- C8 witness at a concrete input: an add under session `"a"` leaves the
cart of session `"b"` empty. -/
theorem sessions_isolated_witness :
    ("b" ≠ "a") ∧
      applyOp (.add iphone15Pro (some 2)) "a" (fun _ => []) "b" = [] := by
  have h : ("b" : String) ≠ "a" := by decide
  exact ⟨h, sessions_isolated (.add iphone15Pro (some 2)) "a" "b"
    (fun _ => []) h⟩

/-- The handler's `(len + limit - 1) / limit` is the mathematical ceiling
of `len / limit` for a positive `limit`. -/
theorem add_pred_div_eq_ceil (m n : ℕ) (hn : 1 ≤ n) :
    (((m + n - 1) / n : ℕ) : ℤ) = ⌈(m : ℚ) / (n : ℚ)⌉ := by
  rcases Nat.eq_zero_or_pos m with rfl | hm
  · rw [Nat.zero_add, Nat.div_eq_of_lt (by omega)]
    simp
  · have hn0 : (0 : ℚ) < n := by positivity
    have hsplit : m + n - 1 = (m - 1) + n := by omega
    have hk : (m + n - 1) / n = (m - 1) / n + 1 := by
      rw [hsplit, Nat.add_div_right _ (by omega)]
    have hdm := Nat.div_add_mod (m - 1) n
    have hmod : (m - 1) % n < n := Nat.mod_lt _ (by omega)
    set k := (m - 1) / n with hkdef
    set r := (m - 1) % n with hrdef
    have ecast : (n : ℤ) * (k : ℕ) + (r : ℕ) = (m : ℤ) - 1 := by
      have h' : ((n * k + r : ℕ) : ℤ) = ((m - 1 : ℕ) : ℤ) :=
        congrArg _ hdm
      push_cast [Nat.cast_sub hm] at h'
      exact h'
    have hmodcast : ((r : ℕ) : ℤ) < (n : ℤ) := by exact_mod_cast hmod
    rw [hk]
    symm
    rw [Int.ceil_eq_iff]
    constructor
    · rw [show ((((k + 1 : ℕ) : ℤ)) : ℚ) - 1 = (((k : ℕ) : ℤ) : ℚ) by
          push_cast; ring,
        lt_div_iff₀ hn0]
      have hz : ((k : ℕ) : ℤ) * (n : ℤ) < (m : ℤ) := by
        nlinarith [ecast, hmodcast, Int.ofNat_nonneg r]
      exact_mod_cast hz
    · rw [div_le_iff₀ hn0]
      have hz2 : (m : ℤ) ≤ ((k + 1 : ℕ) : ℤ) * (n : ℤ) := by
        push_cast
        nlinarith [ecast, hmodcast]
      exact_mod_cast hz2

/-- C9: for any matching product list, page ≥ 1 and limit ≥ 1, the listing
returns the slice `[(page-1)*limit, page*limit)` (equivalently, `limit`
items starting at `(page-1)*limit`), so at most `limit` products, with
`totalPages = ceil(count/limit)`, `totalProducts = count`,
`hasNext = (page*limit < count)` and `hasPrev = ((page-1)*limit > 0)`;
the products handler is this pagination applied to the search filter. -/
theorem products_pagination_spec (l : List Product) (page limit : ℕ)
    (hpage : 1 ≤ page) (hlimit : 1 ≤ limit) :
    (paginate l page limit).1 =
      jsSlice l ((page - 1) * limit) (page * limit) ∧
    (paginate l page limit).1 = (l.drop ((page - 1) * limit)).take limit ∧
    (paginate l page limit).1.length ≤ limit ∧
    (((paginate l page limit).2.totalPages : ℤ)
        = ⌈(l.length : ℚ) / (limit : ℚ)⌉) ∧
    (paginate l page limit).2.totalProducts = l.length ∧
    ((paginate l page limit).2.hasNext = true ↔
        page * limit < l.length) ∧
    ((paginate l page limit).2.hasPrev = true ↔
        0 < (page - 1) * limit) ∧
    (∀ search : String, productsHandler search page limit =
        paginate (searchFilter search) page limit) := by
  obtain ⟨page', rfl⟩ : ∃ p', page = p' + 1 := ⟨page - 1, by omega⟩
  have hslice : jsSlice l ((page' + 1 - 1) * limit) ((page' + 1) * limit)
      = (l.drop ((page' + 1 - 1) * limit)).take limit := by
    rw [jsSlice, List.drop_take]
    have harith : (page' + 1) * limit - (page' + 1 - 1) * limit = limit := by
      rw [Nat.add_sub_cancel, Nat.succ_mul, Nat.add_sub_cancel_left]
    rw [harith, Nat.add_sub_cancel]
  refine ⟨rfl, hslice, ?_, ?_, rfl, ?_, ?_, fun _ => rfl⟩
  · have h1 : (paginate l (page' + 1) limit).1
        = (l.drop ((page' + 1 - 1) * limit)).take limit := hslice
    rw [h1]
    exact List.length_take_le _ _
  · exact add_pred_div_eq_ceil l.length limit hlimit
  · simp [paginate]
  · simp [paginate]

/-- C9 witness at a concrete input: the full catalog at page 1, limit 10. -/
theorem products_pagination_spec_witness :
    (paginate products 1 10).1 = jsSlice products ((1 - 1) * 10) (1 * 10) ∧
    (paginate products 1 10).1 = (products.drop ((1 - 1) * 10)).take 10 ∧
    (paginate products 1 10).1.length ≤ 10 ∧
    (((paginate products 1 10).2.totalPages : ℤ)
        = ⌈(products.length : ℚ) / (10 : ℚ)⌉) ∧
    (paginate products 1 10).2.totalProducts = products.length ∧
    ((paginate products 1 10).2.hasNext = true ↔
        1 * 10 < products.length) ∧
    ((paginate products 1 10).2.hasPrev = true ↔ 0 < (1 - 1) * 10) ∧
    (∀ search : String, productsHandler search 1 10 =
        paginate (searchFilter search) 1 10) :=
  products_pagination_spec products 1 10 (by norm_num) (by norm_num)

/-- C10: every success payload reports `itemCount` as the number of line
items in the cart, not the sum of their quantities; a one-item cart with
quantity 2 reports `itemCount = 1` while the quantities sum to 2. -/
theorem itemCount_counts_line_items :
    (∀ (st : Store) (sessionId : String),
        (getCartResponse st sessionId).itemCount = (st sessionId).length) ∧
    (∀ (c : List CartItem) (p : Product) (q? : Option Int)
        (r : CartResponse), addResponse c p q? = .ok r →
        r.itemCount = r.cart.length) ∧
    (∀ (c : List CartItem) (p : Product) (q? : Option Int)
        (r : CartResponse), updateResponse c p q? = .ok r →
        r.itemCount = r.cart.length) ∧
    (∀ (c : List CartItem) (s : String) (r : CartResponse) (it : CartItem),
        removeResponse c s = .ok (r, it) → r.itemCount = r.cart.length) ∧
    ((mkCartResponse [snapshotItem iphone15Pro 2]).itemCount = 1 ∧
      (([snapshotItem iphone15Pro 2]).map
          (fun item => item.quantity)).sum = 2) := by
  have hmap : ∀ (E : Except CartError (List CartItem)) (r : CartResponse),
      E.map mkCartResponse = .ok r → r.itemCount = r.cart.length := by
    intro E r h
    cases E with
    | ok cart =>
        simp only [Except.map] at h
        obtain rfl := Except.ok.inj h
        rfl
    | error e => simp [Except.map] at h
  refine ⟨fun _ _ => rfl, ?_, ?_, ?_, by decide, by decide⟩
  · intro c p q? r h
    exact hmap _ r h
  · intro c p q? r h
    exact hmap _ r h
  · intro c s r it h
    rw [removeResponse] at h
    cases hres : removePipeline c s with
    | ok val =>
        rw [hres] at h
        simp only [Except.map] at h
        have h2 := Except.ok.inj h
        injection h2 with h3 h4
        rw [← h3]
        rfl
    | error e =>
        rw [hres] at h
        simp [Except.map] at h

/-- C10 witness at a concrete input: a successful add reports the cart
length as the item count. -/
theorem itemCount_counts_line_items_witness :
    addResponse [] iphone15Pro (some 2) =
      .ok (mkCartResponse [snapshotItem iphone15Pro 2]) ∧
    (mkCartResponse [snapshotItem iphone15Pro 2]).itemCount =
      (mkCartResponse [snapshotItem iphone15Pro 2]).cart.length := by
  have h : addResponse [] iphone15Pro (some 2) =
      .ok (mkCartResponse [snapshotItem iphone15Pro 2]) := rfl
  exact ⟨h, itemCount_counts_line_items.2.1 [] iphone15Pro (some 2) _ h⟩

example : jsParseInt "42" = some 42 := by decide
example : jsParseInt "1abc" = some 1 := by decide
example : jsParseInt "abc" = none := by decide
example : jsParseInt "-5" = some (-5) := by decide
example : jsParseInt " 0" = some 0 := by decide
example : jsParseInt "0x3" = some 3 := by decide
example : jsParseInt "0X1f" = some 31 := by decide
example : jsParseInt "-0x10" = some (-16) := by decide
example : jsParseInt "0x" = none := by decide
example : jsParseInt "0xZ" = none := by decide
example : jsParseInt "00x3" = some 0 := by decide
example : jsParseInt "\u000B5" = some 5 := by decide
example : jsParseInt " 7" = some 7 := by decide
example : (findProductById "1abc").isSome = true := by decide
example : findProductById "0x3" = some macbookProM3 := rfl
example : findProductById "999" = none := by decide
